import Mathlib

/-!
Verification of the polymarket-explorer normalization layer.

This file shallowly embeds the standardizers of the repository:
`src/data_sources/polymarket_api/standardizer.rs` (Market / MarketGroup
standardization from the Gamma API raw schema) and
`src/data_sources/local_db/standardizer.rs` (Trader / Position /
Transaction standardization from Polars dataframes), together with the
transaction fetch path of `src/data_sources/local_db/handler.rs` and
`mod.rs`.

Rust `f64` values are modelled by `F64`: a rational for the finite values
plus the special values NaN, +inf, -inf; the only float operations the
embedded code performs are comparison with `0.0` and verbatim copying,
which this model captures exactly (IEEE: `NaN < 0` is false, `-inf < 0`
is true).  `serde_json::from_str::<Vec<String>>` is modelled by
`parseJsonStringArray`, a parser for JSON arrays of strings (the `\uXXXX`
escape is not modelled; no claim depends on it).  Polars dataframes are
modelled columnarly by `DataFrame`.
-/

instance {ε α : Type} [DecidableEq ε] [DecidableEq α] : DecidableEq (Except ε α) := fun
  | .error e, .error f => decidable_of_iff (e = f) (by simp)
  | .error _, .ok _ => .isFalse (by simp)
  | .ok _, .error _ => .isFalse (by simp)
  | .ok a, .ok b => decidable_of_iff (a = b) (by simp)

/-- Model of a Rust `f64`: finite values as rationals plus the IEEE special
values.  JSON (serde) never produces NaN/inf, but Parquet columns can. -/
inductive F64 where
  | finite (val : ℚ)
  | nan
  | posInf
  | negInf
deriving DecidableEq, Repr

/-- Model of the Rust comparison `x < 0.0` on an `f64`:
false on NaN, true on -inf. -/
def F64.lt0 : F64 → Bool
  | .finite q => decide (q < 0)
  | .nan => false
  | .posInf => false
  | .negInf => true

/-- Model of Rust `f64::is_finite`. -/
def F64.isFinite : F64 → Bool
  | .finite _ => true
  | _ => false

/-! ## JSON string-array parsing

Model of `serde_json::from_str::<Vec<String>>` as used by
`standardize_market` on the `outcomes`, `outcome_prices` and
`clob_token_ids` fields: parse a JSON array whose elements are strings;
any other input (or trailing garbage) is a deserialization failure. -/

/-- Skip JSON whitespace. -/
def skipWs (cs : List Char) : List Char :=
  cs.dropWhile (fun c => c = ' ' || c = '\t' || c = '\n' || c = '\r')

/-- Decode one JSON string escape character (after a backslash): the
self-escapes quote/backslash/slash, then the control-character escapes by
their ASCII codes (n=10, t=9, r=13, b=8, f=12). -/
def escChar (c : Char) : Option Char :=
  if c = '"' ∨ c = '\\' ∨ c = '/' then some c
  else if c = 'n' then some (Char.ofNat 10)
  else if c = 't' then some (Char.ofNat 9)
  else if c = 'r' then some (Char.ofNat 13)
  else if c = 'b' then some (Char.ofNat 8)
  else if c = 'f' then some (Char.ofNat 12)
  else none

/-- Parse the body of a JSON string (after the opening quote), returning
the decoded characters and the remaining input after the closing quote. -/
def parseStringBody : List Char → Option (List Char × List Char)
  | [] => none
  | '"' :: rest => some ([], rest)
  | '\\' :: rest =>
    match rest with
    | [] => none
    | c :: rest' =>
      match escChar c with
      | none => none
      | some ec =>
        match parseStringBody rest' with
        | none => none
        | some (s, r) => some (ec :: s, r)
  | c :: rest =>
    match parseStringBody rest with
    | none => none
    | some (s, r) => some (c :: s, r)

/-- Parse a comma-separated, `]`-terminated sequence of JSON strings
(the part after `[` of a non-empty array).  Fueled recursion. -/
def parseElems : Nat → List Char → Option (List (List Char) × List Char)
  | 0, _ => none
  | fuel + 1, cs =>
    match skipWs cs with
    | '"' :: rest =>
      match parseStringBody rest with
      | none => none
      | some (s, r) =>
        match skipWs r with
        | ']' :: r2 => some ([s], r2)
        | ',' :: r2 =>
          match parseElems fuel r2 with
          | none => none
          | some (ss, r3) => some (s :: ss, r3)
        | _ => none
    | _ => none

/-- Model of `serde_json::from_str::<Vec<String>>`: `none` is a
deserialization failure. The whole input must be consumed. -/
def parseJsonStringArray (s : String) : Option (List String) :=
  match skipWs s.data with
  | '[' :: rest =>
    match skipWs rest with
    | ']' :: r2 => if skipWs r2 = [] then some [] else none
    | _ =>
      match parseElems (s.length + 1) rest with
      | none => none
      | some (elems, r2) =>
        if skipWs r2 = [] then some (elems.map fun l => String.mk l) else none
  | _ => none

/-! ## Raw and standardized market schemas

From `src/data_sources/polymarket_api/types.rs` and
`src/standard_data/models.rs`. -/

/-- Raw per-market payload from the Gamma API
(`GammaMarketResponse` in `types.rs`). -/
structure GammaMarketResponse where
  question : String
  condition_id : String
  slug : String
  outcomes : String
  outcome_prices : String
  clob_token_ids : String
  active : Bool
  closed : Bool
  volume_num : F64
  volume_24hr : F64
  volume_1wk : F64
  volume_1mo : F64
  volume_1yr : F64
  liquidity_num : F64
  competitive : F64
  last_trade_price : F64
  best_bid : F64
  best_ask : F64
deriving DecidableEq, Repr

/-- Raw market-group payload from the Gamma API
(`GammaMarketGroupResponse` in `types.rs`). -/
structure GammaMarketGroupResponse where
  slug : String
  title : String
  active : Bool
  closed : Bool
  volume : F64
  liquidity : F64
  markets : List GammaMarketResponse
deriving DecidableEq, Repr

/-- Standardized `Market` entity (`models.rs`). -/
structure Market where
  question : String
  condition_id : String
  slug : String
  outcomes : List String
  outcome_prices : List String
  yes_token_id : String
  no_token_id : String
  active : Bool
  closed : Bool
  volume : F64
  volume_24h : F64
  volume_1w : F64
  volume_1m : F64
  volume_1y : F64
  liquidity : F64
  competitive : F64
  last_trade_price : F64
  bid_price : F64
  ask_price : F64
deriving DecidableEq, Repr

/-- Standardized `MarketGroup` entity (`models.rs`). -/
structure MarketGroup where
  slug : String
  title : String
  active : Bool
  closed : Bool
  volume : F64
  liquidity : F64
  markets : List Market
deriving DecidableEq, Repr

/-! ## Error taxonomy (the variants reachable from the embedded code)

From `src/error.rs`.  The `reason` string of serde deserialization errors
is produced inside the serde library and is not modelled. -/

/-- `ParseError` variant used by `standardize_market` (`error.rs`). -/
inductive ParseError where
  | JsonDeserializationFailed (field_name : Option String)
      (expected_type : String) (json_snippet : String)
deriving DecidableEq, Repr

/-- `NormalizationError` (`error.rs`, lines 296-334). -/
inductive NormalizationError where
  | TokenIdExtractionFailed (market_slug : String) (reason : String)
  | OutcomeMappingFailed (market_slug : String) (outcomes : List String)
      (reason : String)
  | InvalidPriceData (market_slug : String) (field_name : String)
      (reason : String)
  | InvalidVolumeData (market_slug : String) (field_name : String)
      (reason : String)
  | ValidationFailed (entity_type : String) (entity_id : String)
      (reason : String)
  | EmptyRequiredField (field_name : String) (entity_type : String)
deriving DecidableEq, Repr

/-- The market slug carried by a `NormalizationError`, when the variant has
a `market_slug` field: `EmptyRequiredField` and `ValidationFailed` carry
none. -/
def NormalizationError.slugOf : NormalizationError → Option String
  | .TokenIdExtractionFailed s _ => some s
  | .OutcomeMappingFailed s _ _ => some s
  | .InvalidPriceData s _ _ => some s
  | .InvalidVolumeData s _ _ => some s
  | .ValidationFailed _ _ _ => none
  | .EmptyRequiredField _ _ => none

/-- Application-level error (`AppError` in `error.rs`), restricted to the
layers reachable from the embedded standardizer code. -/
inductive AppError where
  | parse (e : ParseError)
  | normalization (e : NormalizationError)
deriving DecidableEq, Repr

/-! ## Market standardization

From `src/data_sources/polymarket_api/standardizer.rs`,
`PolymarketApiStandardizer::standardize_market` and
`standardize_market_group`. -/

/-- `PolymarketApiStandardizer::standardize_market`
(`standardizer.rs`, lines 27-147), check for check in source order. -/
def standardize_market (raw : GammaMarketResponse) : Except AppError Market :=
  let market_slug := raw.slug
  match parseJsonStringArray raw.outcomes with
  | none => .error (.parse (.JsonDeserializationFailed (some "outcomes")
      "Vec<String>" raw.outcomes))
  | some outcomes =>
  match parseJsonStringArray raw.outcome_prices with
  | none => .error (.parse (.JsonDeserializationFailed (some "outcome_prices")
      "Vec<String>" raw.outcome_prices))
  | some outcome_prices =>
  match parseJsonStringArray raw.clob_token_ids with
  | none => .error (.parse (.JsonDeserializationFailed (some "clob_token_ids")
      "Vec<String>" raw.clob_token_ids))
  | some token_ids =>
  if token_ids.length < 2 then
    .error (.normalization (.TokenIdExtractionFailed market_slug
      ("Expected at least 2 token IDs (YES, NO), found " ++
        toString token_ids.length)))
  else
    let yes_token_id := token_ids.getD 0 ""
    let no_token_id := token_ids.getD 1 ""
    if yes_token_id = "" ∨ no_token_id = "" then
      .error (.normalization (.TokenIdExtractionFailed market_slug
        "Token IDs cannot be empty"))
    else if outcomes.length ≠ 2 then
      .error (.normalization (.OutcomeMappingFailed market_slug outcomes
        ("Expected 2 outcomes (YES, NO), found " ++ toString outcomes.length)))
    else if outcome_prices.length ≠ 2 then
      .error (.normalization (.InvalidPriceData market_slug "outcome_prices"
        ("Expected 2 prices, found " ++ toString outcome_prices.length)))
    else if raw.volume_num.lt0 || raw.liquidity_num.lt0 then
      .error (.normalization (.InvalidVolumeData market_slug
        "volume or liquidity" "Values cannot be negative"))
    else if raw.question = "" then
      .error (.normalization (.EmptyRequiredField "question" "Market"))
    else if raw.condition_id = "" then
      .error (.normalization (.EmptyRequiredField "condition_id" "Market"))
    else .ok {
      question := raw.question
      condition_id := raw.condition_id
      slug := market_slug
      outcomes := outcomes
      outcome_prices := outcome_prices
      yes_token_id := yes_token_id
      no_token_id := no_token_id
      active := raw.active
      closed := raw.closed
      volume := raw.volume_num
      volume_24h := raw.volume_24hr
      volume_1w := raw.volume_1wk
      volume_1m := raw.volume_1mo
      volume_1y := raw.volume_1yr
      liquidity := raw.liquidity_num
      competitive := raw.competitive
      last_trade_price := raw.last_trade_price
      bid_price := raw.best_bid
      ask_price := raw.best_ask }

/-- Fail-fast map, the model of Rust
`iter().map(f).collect::<Result<Vec<_>, E>>()`: the first error aborts. -/
def mapStd {α β ε : Type} (f : α → Except ε β) : List α → Except ε (List β)
  | [] => .ok []
  | x :: xs =>
    match f x with
    | .error e => .error e
    | .ok y =>
      match mapStd f xs with
      | .error e => .error e
      | .ok ys => .ok (y :: ys)

/-- `PolymarketApiStandardizer::standardize_market_group`
(`standardizer.rs`, lines 9-24). -/
def standardize_market_group (raw : GammaMarketGroupResponse) :
    Except AppError MarketGroup :=
  match mapStd standardize_market raw.markets with
  | .error e => .error e
  | .ok markets => .ok {
      slug := raw.slug
      title := raw.title
      active := raw.active
      closed := raw.closed
      volume := raw.volume
      liquidity := raw.liquidity
      markets := markets }

/-! ## Standardized tabular entities

From `src/standard_data/models.rs`.  Rust `u32`/`u64` are modelled as
`Nat`: the standardizers copy them without arithmetic, so no overflow can
arise. -/

/-- Standardized `Trader` entity (`models.rs`). -/
structure Trader where
  trader_address : String
  total_markets_entered : Nat
  total_markets_resolved : Nat
  total_wins : Nat
  accuracy : F64
  total_invested : F64
  total_returned : F64
  roi : F64
deriving DecidableEq, Repr

/-- Standardized `Position` entity (`models.rs`). -/
structure Position where
  trader_address : String
  token_id : String
  market_id : String
  side : String
  shares_held : F64
  avg_entry_price : F64
  first_entry_block : Option Nat
deriving DecidableEq, Repr

/-- Standardized `Transaction` entity (`models.rs`). -/
structure Transaction where
  block_number : Nat
  transaction_hash : String
  trader_address : String
  token_id : String
  side : String
  action : String
  shares : F64
  usdc_amount : F64
  market_id : String
deriving DecidableEq, Repr

/-! ## Dataframe model

Model of the Polars `DataFrame` as used by
`src/data_sources/local_db/standardizer.rs`: a height (row count) and a
list of named, typed columns whose cells may be null.  `df.column(name)?`
fails when the column is absent; `.str()?` / `.u32()?` / `.u64()?` /
`.f64()?` fail when the column has another dtype; `ChunkedArray::get(i)`
is `None` on a null cell (or out of range). -/

/-- A typed column payload: the dtype together with the cells.
`u32Col` and `u64Col` are distinct dtypes, as in Polars. -/
inductive ColData where
  | strCol (cells : List (Option String))
  | u32Col (cells : List (Option Nat))
  | u64Col (cells : List (Option Nat))
  | f64Col (cells : List (Option F64))
deriving DecidableEq, Repr

/-- A named column. -/
structure Column where
  name : String
  data : ColData
deriving DecidableEq, Repr

/-- A dataframe: row count plus columns. -/
structure DataFrame where
  height : Nat
  columns : List Column
deriving DecidableEq, Repr

/-- Errors of the local-db standardizers.  The Rust code uses
`anyhow`-wrapped Polars errors for a missing column (`df.column(...)?`)
or a dtype mismatch (`.str()?` etc.), and `.context("Missing <field>")?`
for a null row value. -/
inductive DbError where
  | columnNotFound (name : String)
  | dtypeMismatch (name : String)
  | missingValue (context : String)
deriving DecidableEq, Repr

/-- Look up a column's payload by name (first match, as in Polars). -/
def findCol (df : DataFrame) (name : String) : Option ColData :=
  (df.columns.find? fun c => c.name = name).map Column.data

/-- `df.column(name)?.str()?`. -/
def getStrCol (df : DataFrame) (name : String) :
    Except DbError (List (Option String)) :=
  match findCol df name with
  | none => .error (.columnNotFound name)
  | some (.strCol cells) => .ok cells
  | some _ => .error (.dtypeMismatch name)

/-- `df.column(name)?.u32()?`. -/
def getU32Col (df : DataFrame) (name : String) :
    Except DbError (List (Option Nat)) :=
  match findCol df name with
  | none => .error (.columnNotFound name)
  | some (.u32Col cells) => .ok cells
  | some _ => .error (.dtypeMismatch name)

/-- `df.column(name)?.u64()?`. -/
def getU64Col (df : DataFrame) (name : String) :
    Except DbError (List (Option Nat)) :=
  match findCol df name with
  | none => .error (.columnNotFound name)
  | some (.u64Col cells) => .ok cells
  | some _ => .error (.dtypeMismatch name)

/-- `df.column(name)?.f64()?`. -/
def getF64Col (df : DataFrame) (name : String) :
    Except DbError (List (Option F64)) :=
  match findCol df name with
  | none => .error (.columnNotFound name)
  | some (.f64Col cells) => .ok cells
  | some _ => .error (.dtypeMismatch name)

/-- The string value at row `i` of column `name`, `none` when the column is
absent, has another dtype, or the cell is null / out of range. -/
def DataFrame.strAt (df : DataFrame) (name : String) (i : Nat) :
    Option String :=
  match findCol df name with
  | some (.strCol cells) => cells.getD i none
  | _ => none

/-- The u32 value at row `i` of column `name` (see `DataFrame.strAt`). -/
def DataFrame.u32At (df : DataFrame) (name : String) (i : Nat) : Option Nat :=
  match findCol df name with
  | some (.u32Col cells) => cells.getD i none
  | _ => none

/-- The u64 value at row `i` of column `name` (see `DataFrame.strAt`). -/
def DataFrame.u64At (df : DataFrame) (name : String) (i : Nat) : Option Nat :=
  match findCol df name with
  | some (.u64Col cells) => cells.getD i none
  | _ => none

/-- The f64 value at row `i` of column `name` (see `DataFrame.strAt`). -/
def DataFrame.f64At (df : DataFrame) (name : String) (i : Nat) : Option F64 :=
  match findCol df name with
  | some (.f64Col cells) => cells.getD i none
  | _ => none

/-- Model of `chunked.get(i).context(msg)?`. -/
def cellOr {α : Type} (o : Option α) (msg : String) : Except DbError α :=
  match o with
  | some v => .ok v
  | none => .error (.missingValue msg)

/-! ## Tabular standardizers

From `src/data_sources/local_db/standardizer.rs`,
`LocalDbStandardizer::standardize_traders` / `standardize_positions` /
`standardize_transactions`.  Each first short-circuits on a zero-height
frame, then extracts the columns (in source order), then builds one
entity per row index with `?` on every required cell. -/

/-- One iteration of the row loop of `standardize_traders`
(`standardizer.rs`, lines 25-53): field order as in the source. -/
def rowTrader (addresses : List (Option String))
    (entered resolved wins : List (Option Nat))
    (accuracy invested returned roi : List (Option F64)) (i : Nat) :
    Except DbError Trader := do
  let a ← cellOr (addresses.getD i none) "Missing trader_address"
  let en ← cellOr (entered.getD i none) "Missing total_markets_entered"
  let re ← cellOr (resolved.getD i none) "Missing total_markets_resolved"
  let w ← cellOr (wins.getD i none) "Missing total_wins"
  let ac ← cellOr (accuracy.getD i none) "Missing accuracy"
  let iv ← cellOr (invested.getD i none) "Missing total_invested"
  let rt ← cellOr (returned.getD i none) "Missing total_returned"
  let ro ← cellOr (roi.getD i none) "Missing roi"
  .ok {
    trader_address := a
    total_markets_entered := en
    total_markets_resolved := re
    total_wins := w
    accuracy := ac
    total_invested := iv
    total_returned := rt
    roi := ro }

/-- `LocalDbStandardizer::standardize_traders`
(`standardizer.rs`, lines 9-56). -/
def standardize_traders (df : DataFrame) : Except DbError (List Trader) :=
  if df.height = 0 then .ok [] else do
  let addresses ← getStrCol df "trader_address"
  let entered ← getU32Col df "total_markets_entered"
  let resolved ← getU32Col df "total_markets_resolved"
  let wins ← getU32Col df "total_wins"
  let accuracy ← getF64Col df "accuracy"
  let invested ← getF64Col df "total_invested"
  let returned ← getF64Col df "total_returned"
  let roi ← getF64Col df "roi"
  mapStd (rowTrader addresses entered resolved wins accuracy invested
    returned roi) (List.range df.height)

/-- One iteration of the row loop of `standardize_positions`
(`standardizer.rs`, lines 82-106): `first_entry_block` never fails, it is
`None` whenever the optional column or the cell is unavailable. -/
def rowPosition (addresses token_ids market_ids sides : List (Option String))
    (shares avg_prices : List (Option F64))
    (first_blocks : Option (List (Option Nat))) (i : Nat) :
    Except DbError Position := do
  let first_entry_block := first_blocks.bind fun cells => cells.getD i none
  let a ← cellOr (addresses.getD i none) "Missing trader_address"
  let t ← cellOr (token_ids.getD i none) "Missing token_id"
  let m ← cellOr (market_ids.getD i none) "Missing market_id"
  let s ← cellOr (sides.getD i none) "Missing side"
  let sh ← cellOr (shares.getD i none) "Missing shares_held"
  let ap ← cellOr (avg_prices.getD i none) "Missing avg_entry_price"
  .ok {
    trader_address := a
    token_id := t
    market_id := m
    side := s
    shares_held := sh
    avg_entry_price := ap
    first_entry_block := first_entry_block }

/-- `LocalDbStandardizer::standardize_positions`
(`standardizer.rs`, lines 60-110): the `first_entry_block` column is
optional (`df.column(..).ok().and_then(|col| col.u64().ok())`). -/
def standardize_positions (df : DataFrame) : Except DbError (List Position) :=
  if df.height = 0 then .ok [] else do
  let addresses ← getStrCol df "trader_address"
  let token_ids ← getStrCol df "token_id"
  let market_ids ← getStrCol df "market_id"
  let sides ← getStrCol df "side"
  let shares ← getF64Col df "shares_held"
  let avg_prices ← getF64Col df "avg_entry_price"
  let first_blocks := (getU64Col df "first_entry_block").toOption
  mapStd (rowPosition addresses token_ids market_ids sides shares avg_prices
    first_blocks) (List.range df.height)

/-- One iteration of the row loop of `standardize_transactions`
(`standardizer.rs`, lines 130-166). -/
def rowTransaction (block_numbers : List (Option Nat))
    (tx_hashes trader_addresses token_ids sides actions : List (Option String))
    (shares usdc_amounts : List (Option F64))
    (market_ids : List (Option String)) (i : Nat) :
    Except DbError Transaction := do
  let b ← cellOr (block_numbers.getD i none) "Missing block_number"
  let h ← cellOr (tx_hashes.getD i none) "Missing transaction_hash"
  let a ← cellOr (trader_addresses.getD i none) "Missing trader_address"
  let t ← cellOr (token_ids.getD i none) "Missing token_id"
  let s ← cellOr (sides.getD i none) "Missing side"
  let ac ← cellOr (actions.getD i none) "Missing action"
  let sh ← cellOr (shares.getD i none) "Missing shares"
  let u ← cellOr (usdc_amounts.getD i none) "Missing usdc_amount"
  let m ← cellOr (market_ids.getD i none) "Missing market_id"
  .ok {
    block_number := b
    transaction_hash := h
    trader_address := a
    token_id := t
    side := s
    action := ac
    shares := sh
    usdc_amount := u
    market_id := m }

/-- `LocalDbStandardizer::standardize_transactions`
(`standardizer.rs`, lines 113-170). -/
def standardize_transactions (df : DataFrame) :
    Except DbError (List Transaction) :=
  if df.height = 0 then .ok [] else do
  let block_numbers ← getU64Col df "block_number"
  let tx_hashes ← getStrCol df "transaction_hash"
  let trader_addresses ← getStrCol df "trader_address"
  let token_ids ← getStrCol df "token_id"
  let sides ← getStrCol df "side"
  let actions ← getStrCol df "action"
  let shares ← getF64Col df "shares"
  let usdc_amounts ← getF64Col df "usdc_amount"
  let market_ids ← getStrCol df "market_id"
  mapStd (rowTransaction block_numbers tx_hashes trader_addresses token_ids
    sides actions shares usdc_amounts market_ids) (List.range df.height)

/-! ## Transaction fetch path

From `src/data_sources/local_db/handler.rs`
(`LocalDbHandler::fetch_recent_transactions`) and
`src/data_sources/local_db/mod.rs`
(`TransactionProvider::get_recent_transactions` for `LocalDbSource`).
The parquet read itself is I/O; the loaded `transactions.parquet` frame
is passed in as `table`. -/

/-- Keep the elements of `cells` whose mask entry is `true`. -/
def maskFilter {α : Type} (cells : List α) (mask : List Bool) : List α :=
  (cells.zip mask).filterMap fun p => if p.2 then some p.1 else none

/-- Apply a row mask to one column payload. -/
def ColData.filterRows : ColData → List Bool → ColData
  | .strCol cs, m => .strCol (maskFilter cs m)
  | .u32Col cs, m => .u32Col (maskFilter cs m)
  | .u64Col cs, m => .u64Col (maskFilter cs m)
  | .f64Col cs, m => .f64Col (maskFilter cs m)

/-- Model of `lazy.filter(col(name).eq(lit(v)))` for a string literal:
keep the rows whose cell in column `name` equals `v` (a null cell, a
missing column or a non-string dtype never matches). -/
def DataFrame.filterEqStr (df : DataFrame) (name v : String) : DataFrame :=
  let mask : List Bool :=
    match findCol df name with
    | some (.strCol cells) => cells.map fun o => o = some v
    | _ => List.replicate df.height false
  { height := (mask.filter fun b => b).length
    columns := df.columns.map fun c =>
      { name := c.name, data := c.data.filterRows mask } }

/-- `LocalDbHandler::fetch_recent_transactions` (`handler.rs`, lines
54-67): the `days_back` parameter is accepted but unused (`_days_back`);
the frame is filtered on `market_id == condition_id` only. -/
def fetch_recent_transactions (table : DataFrame) (condition_id : String)
    (days_back : Nat) : DataFrame :=
  table.filterEqStr "market_id" condition_id

/-- `LocalDbSource::get_recent_transactions` (`mod.rs`, lines 49-54):
fetch, then standardize. -/
def get_recent_transactions (table : DataFrame) (condition_id : String)
    (days_back : Nat) : Except DbError (List Transaction) :=
  standardize_transactions (fetch_recent_transactions table condition_id
    days_back)

/-! ## Concrete example payloads used by witnesses and counterexamples -/

/-- A raw Gamma market payload with the varying fields as parameters and
the remaining numeric/flag fields fixed. -/
def mkGammaMarket (q cid slug outc prices toks : String) (vol liq : F64) :
    GammaMarketResponse :=
  { question := q
    condition_id := cid
    slug := slug
    outcomes := outc
    outcome_prices := prices
    clob_token_ids := toks
    active := true
    closed := false
    volume_num := vol
    volume_24hr := .finite 1
    volume_1wk := .finite 2
    volume_1mo := .finite 3
    volume_1yr := .finite 4
    liquidity_num := liq
    competitive := .finite 0
    last_trade_price := .finite 0
    best_bid := .finite 0
    best_ask := .finite 0 }

/-- Raw market whose token-id array has length 1. -/
def rawC1 : GammaMarketResponse :=
  mkGammaMarket "Q1?" "cond-1" "slug-c1" "[\"Yes\",\"No\"]"
    "[\"0.6\",\"0.4\"]" "[\"111\"]" (.finite 10) (.finite 5)

/-- A fully valid raw market. -/
def rawC2good : GammaMarketResponse :=
  mkGammaMarket "Q2?" "cond-2a" "slug-c2a" "[\"Yes\",\"No\"]"
    "[\"0.7\",\"0.3\"]" "[\"201\",\"202\"]" (.finite 20) (.finite 6)

/-- A raw market whose token-id array has length 1. -/
def rawC2bad : GammaMarketResponse :=
  mkGammaMarket "Q2b?" "cond-2b" "slug-c2b" "[\"Yes\",\"No\"]"
    "[\"0.7\",\"0.3\"]" "[\"201\"]" (.finite 20) (.finite 6)

/-- A market group whose second sub-market is invalid. -/
def groupC2 : GammaMarketGroupResponse :=
  { slug := "group-2"
    title := "Group 2"
    active := true
    closed := false
    volume := .finite 100
    liquidity := .finite 50
    markets := [rawC2good, rawC2bad] }

/-- The round-trip scenario of the spec: outcomes Yes/No, prices
0.65/0.35, token ids 111/222, volume 1000. -/
def rawC3 : GammaMarketResponse :=
  mkGammaMarket "Will it rain?" "cond-3" "slug-c3" "[\"Yes\",\"No\"]"
    "[\"0.65\",\"0.35\"]" "[\"111\",\"222\"]" (.finite 1000) (.finite 7)

/-- A raw market whose two token ids coincide (both `"444"`). -/
def rawC4 : GammaMarketResponse :=
  mkGammaMarket "Q4?" "cond-4" "slug-c4" "[\"Yes\",\"No\"]"
    "[\"0.5\",\"0.5\"]" "[\"444\",\"444\"]" (.finite 10) (.finite 5)

/-- The market `standardize_market` produces from `rawC4`: its two token
ids are equal. -/
def marketC4 : Market :=
  { question := "Q4?"
    condition_id := "cond-4"
    slug := "slug-c4"
    outcomes := ["Yes", "No"]
    outcome_prices := ["0.5", "0.5"]
    yes_token_id := "444"
    no_token_id := "444"
    active := true
    closed := false
    volume := .finite 10
    volume_24h := .finite 1
    volume_1w := .finite 2
    volume_1m := .finite 3
    volume_1y := .finite 4
    liquidity := .finite 5
    competitive := .finite 0
    last_trade_price := .finite 0
    bid_price := .finite 0
    ask_price := .finite 0 }

/-- A raw market that is valid except for its empty `question`. -/
def rawC5 : GammaMarketResponse :=
  mkGammaMarket "" "cond-5" "slug-c5" "[\"Yes\",\"No\"]"
    "[\"0.5\",\"0.5\"]" "[\"531\",\"532\"]" (.finite 10) (.finite 5)

/-- A raw market whose token-id array has length 1 (slug `slug-c5b`). -/
def rawC5b : GammaMarketResponse :=
  mkGammaMarket "Q5?" "cond-5b" "slug-c5b" "[\"Yes\",\"No\"]"
    "[\"0.5\",\"0.5\"]" "[\"551\"]" (.finite 10) (.finite 5)

/-- A traders frame with one row violating
`total_wins <= total_markets_resolved <= total_markets_entered` and with
NaN `accuracy` and `roi`. -/
def dfC6 : DataFrame :=
  { height := 1
    columns :=
      [ { name := "trader_address", data := .strCol [some "0xbad"] }
      , { name := "total_markets_entered", data := .u32Col [some 0] }
      , { name := "total_markets_resolved", data := .u32Col [some 1] }
      , { name := "total_wins", data := .u32Col [some 2] }
      , { name := "accuracy", data := .f64Col [some .nan] }
      , { name := "total_invested", data := .f64Col [some (.finite 10)] }
      , { name := "total_returned", data := .f64Col [some (.finite 5)] }
      , { name := "roi", data := .f64Col [some .nan] } ] }

/-- The trader `standardize_traders` builds from the single row of
`dfC6`: it violates the ordering invariant and is not finite. -/
def traderC6 : Trader :=
  { trader_address := "0xbad"
    total_markets_entered := 0
    total_markets_resolved := 1
    total_wins := 2
    accuracy := .nan
    total_invested := .finite 10
    total_returned := .finite 5
    roi := .nan }

/-- A traders frame with one row satisfying all the Trader invariants. -/
def dfC6ok : DataFrame :=
  { height := 1
    columns :=
      [ { name := "trader_address", data := .strCol [some "0xok"] }
      , { name := "total_markets_entered", data := .u32Col [some 5] }
      , { name := "total_markets_resolved", data := .u32Col [some 3] }
      , { name := "total_wins", data := .u32Col [some 2] }
      , { name := "accuracy", data := .f64Col [some (.finite 1)] }
      , { name := "total_invested", data := .f64Col [some (.finite 10)] }
      , { name := "total_returned", data := .f64Col [some (.finite 12)] }
      , { name := "roi", data := .f64Col [some (.finite 2)] } ] }

/-- A zero-row frame with no columns at all. -/
def dfH0 : DataFrame := { height := 0, columns := [] }

/-- A one-row frame with no columns at all: every required column is
missing. -/
def dfR1 : DataFrame := { height := 1, columns := [] }

/-- A positions frame whose required columns are all present with the
right dtypes, whose `trader_address` cell is null, and which has no
`first_entry_block` column. -/
def dfC10 : DataFrame :=
  { height := 1
    columns :=
      [ { name := "trader_address", data := .strCol [none] }
      , { name := "token_id", data := .strCol [some "t1"] }
      , { name := "market_id", data := .strCol [some "m1"] }
      , { name := "side", data := .strCol [some "YES"] }
      , { name := "shares_held", data := .f64Col [some (.finite 3)] }
      , { name := "avg_entry_price", data := .f64Col [some (.finite 1)] } ] }

/-- A positions frame with one fully populated row and no
`first_entry_block` column. -/
def dfC10ok : DataFrame :=
  { height := 1
    columns :=
      [ { name := "trader_address", data := .strCol [some "0xp"] }
      , { name := "token_id", data := .strCol [some "t1"] }
      , { name := "market_id", data := .strCol [some "m1"] }
      , { name := "side", data := .strCol [some "YES"] }
      , { name := "shares_held", data := .f64Col [some (.finite 3)] }
      , { name := "avg_entry_price", data := .f64Col [some (.finite 1)] } ] }

/-- The trader `standardize_traders` builds from the single row of
`dfC6ok`. -/
def traderC6ok : Trader :=
  { trader_address := "0xok"
    total_markets_entered := 5
    total_markets_resolved := 3
    total_wins := 2
    accuracy := .finite 1
    total_invested := .finite 10
    total_returned := .finite 12
    roi := .finite 2 }

/-- The position `standardize_positions` builds from the single row of
`dfC10ok`: `first_entry_block` is `none` since the column is absent. -/
def positionC10 : Position :=
  { trader_address := "0xp"
    token_id := "t1"
    market_id := "m1"
    side := "YES"
    shares_held := .finite 3
    avg_entry_price := .finite 1
    first_entry_block := none }

/-- Row `i` of a traders frame satisfies the ordering invariant
`total_wins <= total_markets_resolved <= total_markets_entered`
(vacuously when a cell is unavailable). -/
def rowOrdOk (df : DataFrame) (i : Nat) : Bool :=
  match df.u32At "total_wins" i, df.u32At "total_markets_resolved" i,
      df.u32At "total_markets_entered" i with
  | some w, some r, some en => decide (w ≤ r ∧ r ≤ en)
  | _, _, _ => true

/-- The f64 cell at row `i` of column `name` is finite (vacuously when
unavailable). -/
def rowFinOk (df : DataFrame) (name : String) (i : Nat) : Bool :=
  match df.f64At name i with
  | some a => a.isFinite
  | none => true

/-! ## Helper lemmas -/

theorem except_bind_ok {ε α β : Type} {x : Except ε α} {f : α → Except ε β}
    {b : β} (h : x >>= f = .ok b) : ∃ a, x = .ok a ∧ f a = .ok b := by
  cases x with
  | error e => exact Except.noConfusion h
  | ok a => exact ⟨a, rfl, h⟩

theorem cellOr_ok {α : Type} {o : Option α} {msg : String} {a : α}
    (h : cellOr o msg = .ok a) : o = some a := by
  cases o with
  | none => exact Except.noConfusion h
  | some v => simpa [cellOr] using h

theorem cellOr_ok_of_some {α : Type} {o : Option α} {a : α} (msg : String)
    (h : o = some a) : cellOr o msg = .ok a := by
  subst h; rfl

theorem mapStd_cons_ok {α β ε : Type} {f : α → Except ε β} {x : α}
    {xs : List α} {ys : List β} (h : mapStd f (x :: xs) = .ok ys) :
    ∃ y ys', f x = .ok y ∧ mapStd f xs = .ok ys' ∧ ys = y :: ys' := by
  simp only [mapStd] at h
  cases hx : f x with
  | error e => simp only [hx] at h; exact Except.noConfusion h
  | ok y =>
    simp only [hx] at h
    cases hxs : mapStd f xs with
    | error e => simp only [hxs] at h; exact Except.noConfusion h
    | ok ys' =>
      simp only [hxs] at h
      exact ⟨y, ys', rfl, rfl, (Except.ok.inj h).symm⟩

theorem mapStd_nil_ok {α β ε : Type} {f : α → Except ε β} {ys : List β}
    (h : mapStd f [] = .ok ys) : ys = [] :=
  (Except.ok.inj h).symm

theorem mapStd_ok_get {α β ε : Type} {f : α → Except ε β} {l : List α}
    {ys : List β} (h : mapStd f l = .ok ys) :
    ys.length = l.length ∧ ∀ i (hi : i < l.length) (hi' : i < ys.length),
      f (l.get ⟨i, hi⟩) = .ok (ys.get ⟨i, hi'⟩) := by
  induction l generalizing ys with
  | nil =>
    obtain rfl := mapStd_nil_ok h
    exact ⟨rfl, fun i hi _ => absurd hi (Nat.not_lt_zero i)⟩
  | cons x xs ih =>
    obtain ⟨y, ys', hy, hys, rfl⟩ := mapStd_cons_ok h
    obtain ⟨hlen, hget⟩ := ih hys
    refine ⟨by simp [hlen], ?_⟩
    intro i hi hi'
    cases i with
    | zero => simpa using hy
    | succ j =>
      simpa using hget j (by simpa using hi) (by simpa using hi')

theorem mapStd_range_ok {β ε : Type} {f : Nat → Except ε β} {n : Nat}
    {ys : List β} (h : mapStd f (List.range n) = .ok ys) :
    ys.length = n ∧ ∀ i (hi : i < ys.length), f i = .ok (ys.get ⟨i, hi⟩) := by
  obtain ⟨hlen, hget⟩ := mapStd_ok_get h
  have hn : ys.length = n := by simpa using hlen
  refine ⟨hn, fun i hi => ?_⟩
  have hi2 : i < (List.range n).length := by simpa [List.length_range, ← hn]
  have := hget i hi2 hi
  simpa [List.get_eq_getElem, List.getElem_range] using this

theorem mapStd_ok_mem {α β ε : Type} {f : α → Except ε β} {l : List α}
    {ys : List β} (h : mapStd f l = .ok ys) :
    ∀ y ∈ ys, ∃ x ∈ l, f x = .ok y := by
  induction l generalizing ys with
  | nil =>
    obtain rfl := mapStd_nil_ok h
    intro y hy
    exact absurd hy (List.not_mem_nil y)
  | cons x xs ih =>
    obtain ⟨y0, ys', hy0, hys, rfl⟩ := mapStd_cons_ok h
    intro y hy
    rcases List.mem_cons.mp hy with rfl | hy'
    · exact ⟨x, List.mem_cons_self x xs, hy0⟩
    · obtain ⟨x', hx', hfx'⟩ := ih hys y hy'
      exact ⟨x', List.mem_cons_of_mem x hx', hfx'⟩

theorem mapStd_append_error {α β ε : Type} (f : α → Except ε β)
    (pre post : List α) (m : α) (e : ε)
    (hpre : ∀ p ∈ pre, ∃ v, f p = .ok v) (hm : f m = .error e) :
    mapStd f (pre ++ m :: post) = .error e := by
  induction pre with
  | nil => simp [mapStd, hm]
  | cons x xs ih =>
    obtain ⟨v, hv⟩ := hpre x (List.mem_cons_self x xs)
    have ih' := ih fun p hp => hpre p (List.mem_cons_of_mem x hp)
    simp [List.cons_append, mapStd, hv, ih']

theorem mapStd_ok_of_forall {α β ε : Type} {f : α → Except ε β} {l : List α}
    (h : ∀ x ∈ l, ∃ y, f x = .ok y) : ∃ ys, mapStd f l = .ok ys := by
  induction l with
  | nil => exact ⟨[], rfl⟩
  | cons x xs ih =>
    obtain ⟨y, hy⟩ := h x (List.mem_cons_self x xs)
    obtain ⟨ys, hys⟩ := ih fun z hz => h z (List.mem_cons_of_mem x hz)
    exact ⟨y :: ys, by simp [mapStd, hy, hys]⟩

theorem except_ok_bind {ε α β : Type} (a : α) (f : α → Except ε β) :
    (Except.ok a : Except ε α) >>= f = f a := rfl

theorem getStrCol_ok {df : DataFrame} {name : String}
    {cells : List (Option String)} (h : getStrCol df name = .ok cells) :
    findCol df name = some (.strCol cells) := by
  unfold getStrCol at h
  cases hf : findCol df name with
  | none => rw [hf] at h; exact Except.noConfusion h
  | some cd => cases cd <;> rw [hf] at h <;>
      first
        | exact Except.noConfusion h
        | rw [Except.ok.inj h]

theorem getU32Col_ok {df : DataFrame} {name : String}
    {cells : List (Option Nat)} (h : getU32Col df name = .ok cells) :
    findCol df name = some (.u32Col cells) := by
  unfold getU32Col at h
  cases hf : findCol df name with
  | none => rw [hf] at h; exact Except.noConfusion h
  | some cd => cases cd <;> rw [hf] at h <;>
      first
        | exact Except.noConfusion h
        | rw [Except.ok.inj h]

theorem getF64Col_ok {df : DataFrame} {name : String}
    {cells : List (Option F64)} (h : getF64Col df name = .ok cells) :
    findCol df name = some (.f64Col cells) := by
  unfold getF64Col at h
  cases hf : findCol df name with
  | none => rw [hf] at h; exact Except.noConfusion h
  | some cd => cases cd <;> rw [hf] at h <;>
      first
        | exact Except.noConfusion h
        | rw [Except.ok.inj h]

theorem strAt_isSome_col {df : DataFrame} {name : String} {i : Nat}
    (h : (df.strAt name i).isSome = true) :
    ∃ cells, findCol df name = some (.strCol cells) := by
  unfold DataFrame.strAt at h
  cases hf : findCol df name with
  | none => rw [hf] at h; simp at h
  | some cd =>
    cases cd with
    | strCol cells => exact ⟨cells, rfl⟩
    | u32Col cells => rw [hf] at h; simp at h
    | u64Col cells => rw [hf] at h; simp at h
    | f64Col cells => rw [hf] at h; simp at h

theorem f64At_isSome_col {df : DataFrame} {name : String} {i : Nat}
    (h : (df.f64At name i).isSome = true) :
    ∃ cells, findCol df name = some (.f64Col cells) := by
  unfold DataFrame.f64At at h
  cases hf : findCol df name with
  | none => rw [hf] at h; simp at h
  | some cd =>
    cases cd with
    | strCol cells => rw [hf] at h; simp at h
    | u32Col cells => rw [hf] at h; simp at h
    | u64Col cells => rw [hf] at h; simp at h
    | f64Col cells => exact ⟨cells, rfl⟩

theorem u64At_eq_getU64Col (df : DataFrame) (name : String) (i : Nat) :
    ((getU64Col df name).toOption.bind fun cells => cells.getD i none) =
      df.u64At name i := by
  unfold getU64Col DataFrame.u64At
  cases hf : findCol df name with
  | none => simp [Except.toOption]
  | some cd => cases cd <;> simp [Except.toOption]

/-! ## Claim theorems -/

/-- Claim C7: for every input table with zero rows, `standardize_traders`,
`standardize_positions` and `standardize_transactions` each return a
successful empty list, never an error. -/
theorem empty_table_yields_empty_list (df : DataFrame) (h : df.height = 0) :
    standardize_traders df = .ok [] ∧ standardize_positions df = .ok [] ∧
      standardize_transactions df = .ok [] := by
  refine ⟨?_, ?_, ?_⟩ <;>
    simp [standardize_traders, standardize_positions,
      standardize_transactions, h]

theorem empty_table_yields_empty_list_w :
    dfH0.height = 0 ∧
      (standardize_traders dfH0 = .ok [] ∧ standardize_positions dfH0 = .ok [] ∧
        standardize_transactions dfH0 = .ok []) :=
  ⟨rfl, empty_table_yields_empty_list dfH0 rfl⟩

/-- Claim C9: the zero-row short-circuit bypasses column validation entirely: a
zero-height frame standardizes to the successful empty list whatever its
columns are (in particular with every required column absent), and no
error of any of the three standardizers — in particular the
missing-column error — is reachable except on a frame with at least one
row. -/
theorem empty_table_bypasses_column_checks (cols : List Column)
    (df : DataFrame) (e : DbError)
    (he : standardize_traders df = .error e ∨
      standardize_positions df = .error e ∨
      standardize_transactions df = .error e) :
    standardize_traders { height := 0, columns := cols } = .ok [] ∧
      standardize_positions { height := 0, columns := cols } = .ok [] ∧
      standardize_transactions { height := 0, columns := cols } = .ok [] ∧
      0 < df.height := by
  refine ⟨by simp [standardize_traders], by simp [standardize_positions],
    by simp [standardize_transactions], ?_⟩
  by_contra h0
  have hz : df.height = 0 := Nat.eq_zero_of_not_pos h0
  rcases he with h | h | h <;>
    simp [standardize_traders, standardize_positions,
      standardize_transactions, hz] at h

theorem empty_table_bypasses_column_checks_w :
    standardize_traders { height := 0, columns := [] } = .ok [] ∧
      standardize_positions { height := 0, columns := [] } = .ok [] ∧
      standardize_transactions { height := 0, columns := [] } = .ok [] ∧
      0 < dfR1.height :=
  empty_table_bypasses_column_checks [] dfR1
    (.columnNotFound "trader_address") (.inl (by decide))

/-- Claim C8: the transaction lookback window has no effect: for every
transactions table and condition id, any two `days_back` values give
exactly the same result, namely the standardization of the rows whose
`market_id` equals the condition id. -/
theorem lookback_window_no_effect (table : DataFrame) (condition_id : String)
    (d1 d2 : Nat) :
    get_recent_transactions table condition_id d1 =
        get_recent_transactions table condition_id d2 ∧
      get_recent_transactions table condition_id d1 =
        standardize_transactions (table.filterEqStr "market_id" condition_id) :=
  ⟨rfl, rfl⟩

/-- Claim C2: when a sub-market of a raw market group fails standardization,
`standardize_market_group` returns the error of the first failing
sub-market in list order (all sub-markets before it standardize
successfully), and never a MarketGroup — no partial list. -/
theorem group_propagates_first_market_error (raw : GammaMarketGroupResponse)
    (pre post : List GammaMarketResponse) (m : GammaMarketResponse)
    (e : AppError) (hsplit : raw.markets = pre ++ m :: post)
    (hpre : ∀ p ∈ pre, ∃ v, standardize_market p = .ok v)
    (hm : standardize_market m = .error e) :
    standardize_market_group raw = .error e ∧
      ∀ g, standardize_market_group raw ≠ .ok g := by
  have hmap : mapStd standardize_market raw.markets = .error e := by
    rw [hsplit]
    exact mapStd_append_error _ pre post m e hpre hm
  refine ⟨by simp [standardize_market_group, hmap], ?_⟩
  intro g hg
  rw [standardize_market_group, hmap] at hg
  exact Except.noConfusion hg

theorem group_propagates_first_market_error_w :
    standardize_market_group groupC2 = .error (.normalization
      (.TokenIdExtractionFailed "slug-c2b"
        "Expected at least 2 token IDs (YES, NO), found 1")) := by
  have h := (group_propagates_first_market_error groupC2 [rawC2good] []
    rawC2bad (.normalization (.TokenIdExtractionFailed "slug-c2b"
      "Expected at least 2 token IDs (YES, NO), found 1"))
    rfl
    (by
      intro p hp
      rw [List.mem_singleton] at hp
      subst hp
      exact ⟨_, rfl⟩)
    (by decide)).1
  exact h

/-- Claim C1: a raw market whose parsed token-id array has fewer than 2
elements, or whose parsed outcomes array has length other than 2, or
whose parsed outcome-prices array has length other than 2, never
standardizes to a Market; the first violated check (in the source's
fail-fast order) yields its field-specific error: token-id extraction
error (carrying the slug), outcome-mapping error, price-data error. -/
theorem market_length_mismatch_errors (raw : GammaMarketResponse)
    (os ps ts : List String)
    (ho : parseJsonStringArray raw.outcomes = some os)
    (hp : parseJsonStringArray raw.outcome_prices = some ps)
    (ht : parseJsonStringArray raw.clob_token_ids = some ts)
    (hbad : ts.length < 2 ∨ os.length ≠ 2 ∨ ps.length ≠ 2) :
    (∀ m, standardize_market raw ≠ .ok m) ∧
      (ts.length < 2 →
        standardize_market raw = .error (.normalization
          (.TokenIdExtractionFailed raw.slug
            ("Expected at least 2 token IDs (YES, NO), found " ++
              toString ts.length)))) ∧
      (2 ≤ ts.length → ts.getD 0 "" ≠ "" → ts.getD 1 "" ≠ "" →
        os.length ≠ 2 →
        standardize_market raw = .error (.normalization
          (.OutcomeMappingFailed raw.slug os
            ("Expected 2 outcomes (YES, NO), found " ++
              toString os.length)))) ∧
      (2 ≤ ts.length → ts.getD 0 "" ≠ "" → ts.getD 1 "" ≠ "" →
        os.length = 2 → ps.length ≠ 2 →
        standardize_market raw = .error (.normalization
          (.InvalidPriceData raw.slug "outcome_prices"
            ("Expected 2 prices, found " ++ toString ps.length)))) := by
  refine ⟨?_, ?_, ?_, ?_⟩
  · intro m hm
    unfold standardize_market at hm
    simp only [ho, hp, ht] at hm
    rcases hbad with h | h | h <;>
    · repeat' split at hm
      all_goals simp_all
  · intro h2
    unfold standardize_market
    simp only [ho, hp, ht]
    rw [if_pos h2]
  · intro hge h0 h1 hne
    unfold standardize_market
    simp only [ho, hp, ht]
    rw [if_neg (by omega), if_neg (not_or.mpr ⟨h0, h1⟩), if_pos hne]
  · intro hge h0 h1 heq hne
    unfold standardize_market
    simp only [ho, hp, ht]
    rw [if_neg (by omega), if_neg (not_or.mpr ⟨h0, h1⟩),
      if_neg (by simp [heq]), if_pos hne]

theorem market_length_mismatch_errors_w :
    standardize_market rawC1 = .error (.normalization
      (.TokenIdExtractionFailed "slug-c1"
        "Expected at least 2 token IDs (YES, NO), found 1")) := by
  rw [(market_length_mismatch_errors rawC1 ["Yes", "No"] ["0.6", "0.4"]
    ["111"] (by decide) (by decide) (by decide) (.inl (by decide))).2.1
    (by decide)]
  decide

/-- Claim C3: a raw market satisfying every validation (parses succeed, at
least 2 token ids, both non-empty, exactly 2 outcomes and 2 prices,
volume and liquidity not negative, non-empty question and condition id)
standardizes successfully, with every field copied verbatim: prices stay
the source strings, `yes_token_id`/`no_token_id` are the first/second
parsed token ids. -/
theorem market_roundtrip_exact (raw : GammaMarketResponse)
    (os ps ts : List String)
    (ho : parseJsonStringArray raw.outcomes = some os)
    (hp : parseJsonStringArray raw.outcome_prices = some ps)
    (ht : parseJsonStringArray raw.clob_token_ids = some ts)
    (hts : 2 ≤ ts.length) (h0 : ts.getD 0 "" ≠ "") (h1 : ts.getD 1 "" ≠ "")
    (hos : os.length = 2) (hps : ps.length = 2)
    (hv : raw.volume_num.lt0 = false) (hl : raw.liquidity_num.lt0 = false)
    (hq : raw.question ≠ "") (hc : raw.condition_id ≠ "") :
    standardize_market raw = .ok
      { question := raw.question
        condition_id := raw.condition_id
        slug := raw.slug
        outcomes := os
        outcome_prices := ps
        yes_token_id := ts.getD 0 ""
        no_token_id := ts.getD 1 ""
        active := raw.active
        closed := raw.closed
        volume := raw.volume_num
        volume_24h := raw.volume_24hr
        volume_1w := raw.volume_1wk
        volume_1m := raw.volume_1mo
        volume_1y := raw.volume_1yr
        liquidity := raw.liquidity_num
        competitive := raw.competitive
        last_trade_price := raw.last_trade_price
        bid_price := raw.best_bid
        ask_price := raw.best_ask } := by
  unfold standardize_market
  simp only [ho, hp, ht]
  rw [if_neg (by omega), if_neg (not_or.mpr ⟨h0, h1⟩),
    if_neg (by simp [hos]), if_neg (by simp [hps]),
    if_neg (by simp [hv, hl]), if_neg hq, if_neg hc]

theorem market_roundtrip_exact_w :
    standardize_market rawC3 = .ok
      { question := "Will it rain?"
        condition_id := "cond-3"
        slug := "slug-c3"
        outcomes := ["Yes", "No"]
        outcome_prices := ["0.65", "0.35"]
        yes_token_id := "111"
        no_token_id := "222"
        active := true
        closed := false
        volume := .finite 1000
        volume_24h := .finite 1
        volume_1w := .finite 2
        volume_1m := .finite 3
        volume_1y := .finite 4
        liquidity := .finite 7
        competitive := .finite 0
        last_trade_price := .finite 0
        bid_price := .finite 0
        ask_price := .finite 0 } := by
  rw [market_roundtrip_exact rawC3 ["Yes", "No"] ["0.65", "0.35"]
    ["111", "222"] (by decide) (by decide) (by decide) (by decide)
    (by decide) (by decide) (by decide) (by decide) (by decide) (by decide)
    (by decide) (by decide)]
  decide

/-- Claim C4 counterexample: `standardize_market` accepts a raw market whose
two token ids are identical (`"444"` twice) — distinctness of the token
identifiers is not validated, refuting the claimed invariant. -/
theorem market_token_ids_not_distinct_cex :
    standardize_market rawC4 = .ok marketC4 ∧
      marketC4.yes_token_id = marketC4.no_token_id := by
  exact ⟨by decide, by decide⟩

/-- Claim C4 amended: every Market produced by `standardize_market` has two
non-empty token identifiers (not necessarily distinct — the code never
compares them), exactly two outcomes, exactly two outcome prices, volume
and liquidity that are not negative, and non-empty question and
condition id. -/
theorem market_ok_invariants (raw : GammaMarketResponse) (m : Market)
    (h : standardize_market raw = .ok m) :
    m.yes_token_id ≠ "" ∧ m.no_token_id ≠ "" ∧ m.outcomes.length = 2 ∧
      m.outcome_prices.length = 2 ∧ m.volume.lt0 = false ∧
      m.liquidity.lt0 = false ∧ m.question ≠ "" ∧ m.condition_id ≠ "" := by
  unfold standardize_market at h
  cases hpo : parseJsonStringArray raw.outcomes with
  | none => simp only [hpo] at h; exact Except.noConfusion h
  | some os =>
  cases hpp : parseJsonStringArray raw.outcome_prices with
  | none => simp only [hpo, hpp] at h; exact Except.noConfusion h
  | some ps =>
  cases hpt : parseJsonStringArray raw.clob_token_ids with
  | none => simp only [hpo, hpp, hpt] at h; exact Except.noConfusion h
  | some ts =>
  simp only [hpo, hpp, hpt] at h
  repeat' split at h
  all_goals try exact Except.noConfusion h
  obtain rfl := (Except.ok.inj h).symm
  simp_all [not_or]

theorem market_ok_invariants_w :
    marketC4.yes_token_id ≠ "" ∧ marketC4.no_token_id ≠ "" ∧
      marketC4.outcomes.length = 2 ∧ marketC4.outcome_prices.length = 2 ∧
      marketC4.volume.lt0 = false ∧ marketC4.liquidity.lt0 = false ∧
      marketC4.question ≠ "" ∧ marketC4.condition_id ≠ "" :=
  market_ok_invariants rawC4 marketC4 (by decide)

/-- Claim C5 counterexample: the error `standardize_market` returns for an
empty question is `EmptyRequiredField { field_name, entity_type }`, a
variant that carries no market slug — refuting the claim that every
normalization error names the market slug. -/
theorem normalization_error_missing_slug_cex :
    standardize_market rawC5 = .error (.normalization
      (.EmptyRequiredField "question" "Market")) ∧
      NormalizationError.slugOf (.EmptyRequiredField "question" "Market") =
        none := by
  exact ⟨by decide, rfl⟩

/-- Claim C5 amended: every normalization error returned by
`standardize_market` either carries the market slug (all the
length/emptiness/volume errors do), or is one of the two
`EmptyRequiredField` errors (empty `question` or `condition_id`), which
name the offending field and the entity type but no slug. -/
theorem normalization_error_slug_coverage (raw : GammaMarketResponse)
    (e : NormalizationError)
    (h : standardize_market raw = .error (.normalization e)) :
    e.slugOf = some raw.slug ∨
      ((e = .EmptyRequiredField "question" "Market" ∨
        e = .EmptyRequiredField "condition_id" "Market") ∧
        e.slugOf = none) := by
  unfold standardize_market at h
  cases hpo : parseJsonStringArray raw.outcomes with
  | none => simp only [hpo] at h; simp at h
  | some os =>
  cases hpp : parseJsonStringArray raw.outcome_prices with
  | none => simp only [hpo, hpp] at h; simp at h
  | some ps =>
  cases hpt : parseJsonStringArray raw.clob_token_ids with
  | none => simp only [hpo, hpp, hpt] at h; simp at h
  | some ts =>
  simp only [hpo, hpp, hpt] at h
  repeat' split at h
  all_goals try exact Except.noConfusion h
  all_goals obtain rfl := (AppError.normalization.inj (Except.error.inj h)).symm
  all_goals simp [NormalizationError.slugOf]

theorem normalization_error_slug_coverage_w :
    NormalizationError.slugOf (.TokenIdExtractionFailed "slug-c5b"
        "Expected at least 2 token IDs (YES, NO), found 1") =
        some rawC5b.slug ∨
      (((.TokenIdExtractionFailed "slug-c5b"
          "Expected at least 2 token IDs (YES, NO), found 1" :
            NormalizationError) =
          .EmptyRequiredField "question" "Market" ∨
        (.TokenIdExtractionFailed "slug-c5b"
          "Expected at least 2 token IDs (YES, NO), found 1" :
            NormalizationError) =
          .EmptyRequiredField "condition_id" "Market") ∧
        NormalizationError.slugOf (.TokenIdExtractionFailed "slug-c5b"
          "Expected at least 2 token IDs (YES, NO), found 1") = none) :=
  normalization_error_slug_coverage rawC5b
    (.TokenIdExtractionFailed "slug-c5b"
      "Expected at least 2 token IDs (YES, NO), found 1") (by decide)

/-- Claim C6 counterexample: `standardize_traders` copies row values verbatim
and validates nothing: a row with `total_wins = 2`,
`total_markets_resolved = 1`, `total_markets_entered = 0` and NaN
`accuracy`/`roi` standardizes successfully into a Trader violating both
the ordering invariant and finiteness. -/
theorem trader_invariant_not_enforced_cex :
    standardize_traders dfC6 = .ok [traderC6] ∧
      ¬traderC6.total_wins ≤ traderC6.total_markets_resolved ∧
      ¬traderC6.total_markets_resolved ≤ traderC6.total_markets_entered ∧
      traderC6.accuracy.isFinite = false ∧
      traderC6.roi.isFinite = false := by
  exact ⟨by decide, by decide, by decide, by decide, by decide⟩

/-- Claim C6 amended: a Trader returned by `standardize_traders` satisfies
`total_wins <= total_markets_resolved <= total_markets_entered` with
finite `accuracy` and `roi` whenever the corresponding source rows do;
the standardizer itself performs no validation of these invariants. -/
theorem trader_invariant_conditional (df : DataFrame) (ts : List Trader)
    (h : standardize_traders df = .ok ts)
    (hord : ∀ i, i < df.height → rowOrdOk df i = true)
    (hacc : ∀ i, i < df.height → rowFinOk df "accuracy" i = true)
    (hroi : ∀ i, i < df.height → rowFinOk df "roi" i = true) :
    ∀ t ∈ ts, (t.total_wins ≤ t.total_markets_resolved ∧
      t.total_markets_resolved ≤ t.total_markets_entered) ∧
      t.accuracy.isFinite = true ∧ t.roi.isFinite = true := by
  intro t ht
  unfold standardize_traders at h
  split at h
  · obtain rfl := (Except.ok.inj h).symm
    exact absurd ht (List.not_mem_nil t)
  · obtain ⟨addrs, hA, h⟩ := except_bind_ok h
    obtain ⟨ent, hE, h⟩ := except_bind_ok h
    obtain ⟨res, hR, h⟩ := except_bind_ok h
    obtain ⟨wins, hW, h⟩ := except_bind_ok h
    obtain ⟨acc, hAc, h⟩ := except_bind_ok h
    obtain ⟨inv, hI, h⟩ := except_bind_ok h
    obtain ⟨ret, hRe, h⟩ := except_bind_ok h
    obtain ⟨roic, hRo, h⟩ := except_bind_ok h
    obtain ⟨i, hi, hrow⟩ := mapStd_ok_mem h t ht
    rw [List.mem_range] at hi
    unfold rowTrader at hrow
    obtain ⟨a, ha, hrow⟩ := except_bind_ok hrow
    obtain ⟨en, hen, hrow⟩ := except_bind_ok hrow
    obtain ⟨re, hre, hrow⟩ := except_bind_ok hrow
    obtain ⟨w, hw, hrow⟩ := except_bind_ok hrow
    obtain ⟨ac, hac2, hrow⟩ := except_bind_ok hrow
    obtain ⟨iv, hiv, hrow⟩ := except_bind_ok hrow
    obtain ⟨rt, hrt, hrow⟩ := except_bind_ok hrow
    obtain ⟨ro, hro, hrow⟩ := except_bind_ok hrow
    obtain rfl := (Except.ok.inj hrow).symm
    have hrord := hord i hi
    have hracc := hacc i hi
    have hrroi := hroi i hi
    unfold rowOrdOk at hrord
    unfold rowFinOk at hracc hrroi
    have e1 : df.u32At "total_wins" i = some w := by
      unfold DataFrame.u32At
      rw [getU32Col_ok hW]
      exact cellOr_ok hw
    have e2 : df.u32At "total_markets_resolved" i = some re := by
      unfold DataFrame.u32At
      rw [getU32Col_ok hR]
      exact cellOr_ok hre
    have e3 : df.u32At "total_markets_entered" i = some en := by
      unfold DataFrame.u32At
      rw [getU32Col_ok hE]
      exact cellOr_ok hen
    have e4 : df.f64At "accuracy" i = some ac := by
      unfold DataFrame.f64At
      rw [getF64Col_ok hAc]
      exact cellOr_ok hac2
    have e5 : df.f64At "roi" i = some ro := by
      unfold DataFrame.f64At
      rw [getF64Col_ok hRo]
      exact cellOr_ok hro
    rw [e1, e2, e3] at hrord
    rw [e4] at hracc
    rw [e5] at hrroi
    simp only [decide_eq_true_eq] at hrord
    exact ⟨hrord, hracc, hrroi⟩

theorem trader_invariant_conditional_w :
    (traderC6ok.total_wins ≤ traderC6ok.total_markets_resolved ∧
      traderC6ok.total_markets_resolved ≤ traderC6ok.total_markets_entered) ∧
      traderC6ok.accuracy.isFinite = true ∧ traderC6ok.roi.isFinite = true :=
  trader_invariant_conditional dfC6ok [traderC6ok] (by decide) (by decide)
    (by decide) (by decide) traderC6ok (by simp)

theorem strAt_eq_of_col {df : DataFrame} {name : String}
    {cells : List (Option String)} (i : Nat)
    (hf : findCol df name = some (.strCol cells)) :
    df.strAt name i = cells.getD i none := by
  unfold DataFrame.strAt
  rw [hf]

theorem f64At_eq_of_col {df : DataFrame} {name : String}
    {cells : List (Option F64)} (i : Nat)
    (hf : findCol df name = some (.f64Col cells)) :
    df.f64At name i = cells.getD i none := by
  unfold DataFrame.f64At
  rw [hf]

theorem rowPosition_ok_of_some {addrs tids mids sds : List (Option String)}
    {shs aps : List (Option F64)} {fb : Option (List (Option Nat))} {i : Nat}
    {a t m s : String} {sh ap : F64}
    (hA : addrs.getD i none = some a) (hT : tids.getD i none = some t)
    (hM : mids.getD i none = some m) (hS : sds.getD i none = some s)
    (hSh : shs.getD i none = some sh) (hAp : aps.getD i none = some ap) :
    rowPosition addrs tids mids sds shs aps fb i = .ok
      { trader_address := a
        token_id := t
        market_id := m
        side := s
        shares_held := sh
        avg_entry_price := ap
        first_entry_block := fb.bind fun cells => cells.getD i none } := by
  unfold rowPosition
  rw [hA, hT, hM, hS, hSh, hAp]
  rfl

theorem rowPosition_ok_block {addrs tids mids sds : List (Option String)}
    {shs aps : List (Option F64)} {fb : Option (List (Option Nat))} {i : Nat}
    {p : Position}
    (h : rowPosition addrs tids mids sds shs aps fb i = .ok p) :
    p.first_entry_block = fb.bind fun cells => cells.getD i none := by
  unfold rowPosition at h
  obtain ⟨a, hA, h⟩ := except_bind_ok h
  obtain ⟨t, hT, h⟩ := except_bind_ok h
  obtain ⟨m, hM, h⟩ := except_bind_ok h
  obtain ⟨s, hS, h⟩ := except_bind_ok h
  obtain ⟨sh, hSh, h⟩ := except_bind_ok h
  obtain ⟨ap, hAp, h⟩ := except_bind_ok h
  obtain rfl := (Except.ok.inj h).symm
  rfl

/-- Claim C10 counterexample: a positions frame whose required columns are all
present (with the right dtypes) and which has no `first_entry_block`
column can still fail standardization — a null required cell
(`trader_address` here) is a row-level error, refuting "standardize
still succeeds whenever the required columns are present". -/
theorem positions_required_null_fails_cex :
    standardize_positions dfC10 =
        .error (.missingValue "Missing trader_address") ∧
      findCol dfC10 "trader_address" = some (.strCol [none]) ∧
      findCol dfC10 "token_id" = some (.strCol [some "t1"]) ∧
      findCol dfC10 "market_id" = some (.strCol [some "m1"]) ∧
      findCol dfC10 "side" = some (.strCol [some "YES"]) ∧
      findCol dfC10 "shares_held" = some (.f64Col [some (.finite 3)]) ∧
      findCol dfC10 "avg_entry_price" = some (.f64Col [some (.finite 1)]) ∧
      findCol dfC10 "first_entry_block" = none := by
  exact ⟨by decide, by decide, by decide, by decide, by decide, by decide,
    by decide, by decide⟩

/-- Claim C10 amended: when the required position columns are present with the
right dtypes and no null cells in the first `height` rows,
`standardize_positions` succeeds, and every returned position's
`first_entry_block` equals the optional lookup
`df.u64At "first_entry_block" i` — which is `none` when the column is
absent, has a non-u64 dtype, or has a null cell at that row.  The
optional column can therefore never cause a failure. -/
theorem positions_optional_block_column (df : DataFrame)
    (ha : ∀ i, i < df.height → (df.strAt "trader_address" i).isSome = true)
    (htk : ∀ i, i < df.height → (df.strAt "token_id" i).isSome = true)
    (hmk : ∀ i, i < df.height → (df.strAt "market_id" i).isSome = true)
    (hsd : ∀ i, i < df.height → (df.strAt "side" i).isSome = true)
    (hsh : ∀ i, i < df.height → (df.f64At "shares_held" i).isSome = true)
    (hav : ∀ i, i < df.height →
      (df.f64At "avg_entry_price" i).isSome = true) :
    ∃ ps, standardize_positions df = .ok ps ∧ ps.length = df.height ∧
      ∀ i (hi : i < ps.length),
        (ps.get ⟨i, hi⟩).first_entry_block =
          df.u64At "first_entry_block" i := by
  by_cases h0 : df.height = 0
  · refine ⟨[], by simp [standardize_positions, h0], by simp [h0], ?_⟩
    intro i hi
    exact absurd hi (by simp)
  · have hpos : 0 < df.height := Nat.pos_of_ne_zero h0
    obtain ⟨aCells, hfA⟩ := strAt_isSome_col (ha 0 hpos)
    obtain ⟨tCells, hfT⟩ := strAt_isSome_col (htk 0 hpos)
    obtain ⟨mCells, hfM⟩ := strAt_isSome_col (hmk 0 hpos)
    obtain ⟨sCells, hfS⟩ := strAt_isSome_col (hsd 0 hpos)
    obtain ⟨shCells, hfSh⟩ := f64At_isSome_col (hsh 0 hpos)
    obtain ⟨apCells, hfAp⟩ := f64At_isSome_col (hav 0 hpos)
    have hGA : getStrCol df "trader_address" = .ok aCells := by
      simp [getStrCol, hfA]
    have hGT : getStrCol df "token_id" = .ok tCells := by
      simp [getStrCol, hfT]
    have hGM : getStrCol df "market_id" = .ok mCells := by
      simp [getStrCol, hfM]
    have hGS : getStrCol df "side" = .ok sCells := by
      simp [getStrCol, hfS]
    have hGSh : getF64Col df "shares_held" = .ok shCells := by
      simp [getF64Col, hfSh]
    have hGAp : getF64Col df "avg_entry_price" = .ok apCells := by
      simp [getF64Col, hfAp]
    have hrows : ∀ x ∈ List.range df.height, ∃ p,
        rowPosition aCells tCells mCells sCells shCells apCells
          ((getU64Col df "first_entry_block").toOption) x = .ok p := by
      intro x hx
      rw [List.mem_range] at hx
      have h1 := ha x hx
      have h2 := htk x hx
      have h3 := hmk x hx
      have h4 := hsd x hx
      have h5 := hsh x hx
      have h6 := hav x hx
      rw [strAt_eq_of_col x hfA] at h1
      rw [strAt_eq_of_col x hfT] at h2
      rw [strAt_eq_of_col x hfM] at h3
      rw [strAt_eq_of_col x hfS] at h4
      rw [f64At_eq_of_col x hfSh] at h5
      rw [f64At_eq_of_col x hfAp] at h6
      obtain ⟨av, hav1⟩ := Option.isSome_iff_exists.mp h1
      obtain ⟨tv, hav2⟩ := Option.isSome_iff_exists.mp h2
      obtain ⟨mv, hav3⟩ := Option.isSome_iff_exists.mp h3
      obtain ⟨sv, hav4⟩ := Option.isSome_iff_exists.mp h4
      obtain ⟨shv, hav5⟩ := Option.isSome_iff_exists.mp h5
      obtain ⟨apv, hav6⟩ := Option.isSome_iff_exists.mp h6
      exact ⟨_, rowPosition_ok_of_some hav1 hav2 hav3 hav4 hav5 hav6⟩
    obtain ⟨ps, hps⟩ := mapStd_ok_of_forall hrows
    have hstd : standardize_positions df = .ok ps := by
      unfold standardize_positions
      rw [if_neg h0]
      simp only [hGA, hGT, hGM, hGS, hGSh, hGAp, except_ok_bind]
      exact hps
    obtain ⟨hlen, hget⟩ := mapStd_range_ok hps
    refine ⟨ps, hstd, hlen, ?_⟩
    intro i hi
    rw [rowPosition_ok_block (hget i hi)]
    exact u64At_eq_getU64Col df "first_entry_block" i

theorem positions_optional_block_column_w :
    ∃ ps, standardize_positions dfC10ok = .ok ps ∧
      ps.length = dfC10ok.height ∧
      ∀ i (hi : i < ps.length),
        (ps.get ⟨i, hi⟩).first_entry_block =
          dfC10ok.u64At "first_entry_block" i :=
  positions_optional_block_column dfC10ok (by decide) (by decide) (by decide)
    (by decide) (by decide) (by decide)
